import Mathlib

/-!
Verification of the catalog-processing core of the Vernacular Artisan Catalog
repository, against the pseudocode in
`.kiro/specs/vernacular-artisan-catalog/design.md`.

The Python pseudocode of the design document is embedded shallowly:
Python strings become `String`, lists become `List`, dicts become association
lists or dedicated structures, and the fallible/stateful handlers become pure
functions returning explicit outcome structures.  Helpers that the design
document uses but does not define (`auto_correct`, `get_image_urls`,
`map_csis_to_tags`, `is_valid_price`, `is_valid_url`, the attribute resolver
and the submission manager's record updates) are modelled from the repository's
specification text and are marked as such in their doc comments.
-/

/-- Model of Python string slicing `s[:n]`: the first `n` characters. -/
def pyTake (n : Nat) (s : String) : String :=
  String.mk (s.data.take n)

/-- Model of Python `sep.join(parts)`. -/
def pyJoin (sep : String) : List String → String
  | [] => ""
  | [x] => x
  | x :: y :: ys => x ++ sep ++ pyJoin sep (y :: ys)

/-- Model of Python `str.lower()` on one character (ASCII range, which covers
every key of the category table in the source). -/
def pyToLower (c : Char) : Char :=
  if 65 ≤ c.toNat ∧ c.toNat ≤ 90 then Char.ofNat (c.toNat + 32) else c

/-- Model of Python `str.lower()`. -/
def pyLower (s : String) : String :=
  String.mk (s.data.map pyToLower)

/-- Lexicographic code-point order on character lists, the order Python's
`sorted` uses on `str`. -/
def charListLe : List Char → List Char → Bool
  | [], _ => true
  | _ :: _, [] => false
  | a :: as, b :: bs =>
      if a.toNat < b.toNat then true
      else if b.toNat < a.toNat then false
      else charListLe as bs

/-- Lexicographic code-point order on strings. -/
def strLe (a b : String) : Bool :=
  charListLe a.data b.data

/-- Insertion of a string into a sorted list. -/
def insertStr (x : String) : List String → List String
  | [] => [x]
  | y :: ys => if strLe x y then x :: y :: ys else y :: insertStr x ys

/-- Model of Python `sorted` on a list of strings (stable insertion sort). -/
def sortStrings : List String → List String
  | [] => []
  | x :: xs => insertStr x (sortStrings xs)

namespace Sha256

/-! SHA-256 over byte lists, modelling Python's
`hashlib.sha256(data).hexdigest()`.  Words are `Nat` reduced mod `2 ^ 32`. -/

def wordMod : Nat := 4294967296

def wadd (a b : Nat) : Nat := (a + b) % wordMod

def rotr (n x : Nat) : Nat := ((x >>> n) ||| (x <<< (32 - n))) % wordMod

def bigS0 (x : Nat) : Nat := rotr 2 x ^^^ rotr 13 x ^^^ rotr 22 x

def bigS1 (x : Nat) : Nat := rotr 6 x ^^^ rotr 11 x ^^^ rotr 25 x

def smallS0 (x : Nat) : Nat := rotr 7 x ^^^ rotr 18 x ^^^ (x >>> 3)

def smallS1 (x : Nat) : Nat := rotr 17 x ^^^ rotr 19 x ^^^ (x >>> 10)

def chf (x y z : Nat) : Nat := (x &&& y) ^^^ ((x ^^^ (wordMod - 1)) &&& z)

def majf (x y z : Nat) : Nat := (x &&& y) ^^^ (x &&& z) ^^^ (y &&& z)

def roundK : List Nat :=
  [1116352408, 1899447441, 3049323471, 3921009573,
   961987163, 1508970993, 2453635748, 2870763221,
   3624381080, 310598401, 607225278, 1426881852,
   1925078388, 2162078206, 2614888103, 3248222580,
   3835390401, 4022224774, 264347078, 604807628,
   770255983, 1249150122, 1555081692, 1996064986,
   2554220882, 2821834349, 2952996808, 3210313671,
   3336571891, 3584528711, 113926993, 338241895,
   666307205, 773529912, 1294757372, 1396182291,
   1695183700, 1986661051, 2177026350, 2456956037,
   2730485921, 2820302411, 3259730800, 3345764771,
   3516065817, 3600352804, 4094571909, 275423344,
   430227734, 506948616, 659060556, 883997877,
   958139571, 1322822218, 1537002063, 1747873779,
   1955562222, 2024104815, 2227730452, 2361852424,
   2428436474, 2756734187, 3204031479, 3329325298]

def initH : List Nat :=
  [1779033703, 3144134277, 1013904242, 2773480762,
   1359893119, 2600822924, 528734635, 1541459225]

/-- Append the 0x80 marker, the zero padding, and the 8-byte big-endian bit
length. -/
def pad (msg : List Nat) : List Nat :=
  let len := msg.length
  let bitLen := len * 8
  let zeros := (120 - ((len + 1) % 64)) % 64
  msg ++ [0x80] ++ List.replicate zeros 0 ++
    (List.range 8).map (fun i => (bitLen >>> (8 * (7 - i))) % 256)

/-- Group bytes into 32-bit big-endian words. -/
def toWords : List Nat → List Nat
  | b0 :: b1 :: b2 :: b3 :: rest =>
      ((b0 <<< 24) ||| (b1 <<< 16) ||| (b2 <<< 8) ||| b3) :: toWords rest
  | _ => []

/-- Split a word list into 16-word blocks. -/
def chunk16 (ws : List Nat) : List (List Nat) :=
  if h : ws = [] then []
  else ws.take 16 :: chunk16 (ws.drop 16)
termination_by ws.length
decreasing_by
  simp only [List.length_drop]
  exact Nat.sub_lt (List.length_pos.mpr h) (by decide)

/-- Extend the 16 block words to the 64-entry message schedule. -/
def extendSchedule (ws : List Nat) : List Nat :=
  (List.range 48).foldl
    (fun acc _ =>
      let i := acc.length
      acc ++ [wadd (wadd (acc.getD (i - 16) 0) (smallS0 (acc.getD (i - 15) 0)))
                   (wadd (acc.getD (i - 7) 0) (smallS1 (acc.getD (i - 2) 0)))])
    ws

/-- One compression round. -/
def round (st : Nat × Nat × Nat × Nat × Nat × Nat × Nat × Nat) (kw : Nat × Nat) :
    Nat × Nat × Nat × Nat × Nat × Nat × Nat × Nat :=
  let (a, b, c, d, e, f, g, h) := st
  let t1 := wadd h (wadd (bigS1 e) (wadd (chf e f g) (wadd kw.1 kw.2)))
  let t2 := wadd (bigS0 a) (majf a b c)
  (wadd t1 t2, a, b, c, wadd d t1, e, f, g)

/-- Compress one 16-word block into the running hash state. -/
def compress (hs : List Nat) (block : List Nat) : List Nat :=
  let w := extendSchedule block
  let a0 := hs.getD 0 0
  let b0 := hs.getD 1 0
  let c0 := hs.getD 2 0
  let d0 := hs.getD 3 0
  let e0 := hs.getD 4 0
  let f0 := hs.getD 5 0
  let g0 := hs.getD 6 0
  let h0 := hs.getD 7 0
  let fin := (roundK.zip w).foldl round (a0, b0, c0, d0, e0, f0, g0, h0)
  let (a, b, c, d, e, f, g, h) := fin
  [wadd a0 a, wadd b0 b, wadd c0 c, wadd d0 d,
   wadd e0 e, wadd f0 f, wadd g0 g, wadd h0 h]

def sha256Words (msg : List Nat) : List Nat :=
  (chunk16 (toWords (pad msg))).foldl compress initH

def hexChar (n : Nat) : Char :=
  if n < 10 then Char.ofNat (48 + n) else Char.ofNat (87 + n)

def wordHex (w : Nat) : List Char :=
  (List.range 8).map (fun i => hexChar ((w >>> (4 * (7 - i))) % 16))

/-- Model of `hashlib.sha256(data).hexdigest()`. -/
def hexDigest (msg : List Nat) : String :=
  String.mk ((sha256Words msg).foldr (fun w acc => wordHex w ++ acc) [])

/-- UTF-8 encoding of one character, modelling Python `str.encode()`. -/
def utf8Bytes (c : Char) : List Nat :=
  let n := c.toNat
  if n < 0x80 then [n]
  else if n < 0x800 then
    [0xC0 ||| (n >>> 6), 0x80 ||| (n &&& 0x3F)]
  else if n < 0x10000 then
    [0xE0 ||| (n >>> 12), 0x80 ||| ((n >>> 6) &&& 0x3F), 0x80 ||| (n &&& 0x3F)]
  else
    [0xF0 ||| (n >>> 18), 0x80 ||| ((n >>> 12) &&& 0x3F),
     0x80 ||| ((n >>> 6) &&& 0x3F), 0x80 ||| (n &&& 0x3F)]

/-- Model of Python `s.encode()` (UTF-8 bytes of a string). -/
def encodeStr (s : String) : List Nat :=
  s.data.foldr (fun c acc => utf8Bytes c ++ acc) []

end Sha256

/-- Model of `hashlib.sha256(s.encode()).hexdigest()`. -/
def sha256hex (s : String) : String :=
  Sha256.hexDigest (Sha256.encodeStr s)

/-! ## Data model (design.md, "Data Models") -/

/-- Cultural Specific Item (`class CSI` in the design document). -/
structure CSI where
  vernacular_term : String
  transliteration : String
  english_context : String
  cultural_significance : String
  deriving DecidableEq

/-- The `price` dict of `ExtractedAttributes`; the numeric value is modelled
through the decimal string Python's `str()` renders for it, which is also the
form every consumer of the field uses. -/
structure PriceDict where
  value : String
  currency : String
  deriving DecidableEq

/-- `class ExtractedAttributes` of the design document.  The dict-typed fields
(`dimensions`, `weight`, `confidence_scores`) are modelled as association
lists.  `image_urls` models the processed-image URLs read by the
`get_image_urls` helper, which the source calls but does not define. -/
structure ExtractedAttributes where
  category : String
  subcategory : String
  material : List String
  colors : List String
  dimensions : List (String × String)
  weight : List (String × String)
  price : PriceDict
  short_description : String
  long_description : String
  csis : List CSI
  craft_technique : String
  region_of_origin : String
  confidence_scores : List (String × String)
  image_urls : List String
  deriving DecidableEq

/-- `class ItemDescriptor` (the fields the mapper populates). -/
structure ItemDescriptor where
  name : String
  short_desc : String
  long_desc : String
  images : List String
  deriving DecidableEq

/-- The Beckn `price` object: `value` is a string in the wire schema. -/
structure BecknPrice where
  currency : String
  value : String
  deriving DecidableEq

/-- `class ONDCCatalogItem` (the fields `map_to_beckn_item` populates; `tags`
is a dict modelled as an association list). -/
structure ONDCCatalogItem where
  id : String
  descriptor : ItemDescriptor
  price : BecknPrice
  category_id : String
  tags : List (String × String)
  deriving DecidableEq

/-- `enum ProcessingStatus` of the design document. -/
inductive ProcessingStatus
  | pending
  | in_progress
  | completed
  | failed
  | skipped
  deriving DecidableEq

/-- The `asr_result` dict of a processing record: either untouched, the
error/fallback dict written on an unsupported language, or a
transcription/confidence dict. -/
inductive ASRResultPayload
  | noResult
  | errorPayload (error : String) (fallback : String)
  | transcriptionPayload (transcription : String) (confidence : Rat)
  deriving DecidableEq

/-- `class CatalogProcessingRecord` of the design document.  The `vision` and
`extraction` result dicts are modelled as association lists; timestamps are
naturals. -/
structure CatalogProcessingRecord where
  tracking_id : String
  tenant_id : String
  artisan_id : String
  photo_key : String
  audio_key : String
  language : String
  asr_status : ProcessingStatus
  asr_result : ASRResultPayload
  vision_status : ProcessingStatus
  vision_result : List (String × String)
  extraction_status : ProcessingStatus
  extraction_result : List (String × String)
  mapping_status : ProcessingStatus
  ondc_payload : ONDCCatalogItem
  submission_status : ProcessingStatus
  ondc_catalog_id : Option String
  created_at : Nat
  updated_at : Nat
  completed_at : Nat
  deriving DecidableEq

/-! ## ONDC mapping logic (design.md, "ONDC Mapping Logic") -/

/-- Modelled from the spec: `get_image_urls` is called by the mapper but not
defined in the source; the spec requires the mapped item to carry the record's
image references, so the helper reads the stored image URLs. -/
def get_image_urls (e : ExtractedAttributes) : List String :=
  e.image_urls

/-- Modelled from the spec: `map_csis_to_tags` is called by the mapper but not
defined in the source; the spec requires every culturally significant term to
survive into the description or an attached metadata field, so each CSI
becomes one tag keyed by its vernacular term. -/
def map_csis_to_tags (csis : List CSI) : List (String × String) :=
  csis.map (fun c => (c.vernacular_term, c.english_context))

/-- One line of the Cultural Significance section
(`- vernacular_term (transliteration): english_context` plus newline). -/
def csiLine (c : CSI) : String :=
  "- " ++ c.vernacular_term ++ " (" ++ c.transliteration ++ "): " ++
    c.english_context ++ "\n"

/-- The `csi_section` string accumulated in `build_long_description`. -/
def csiSection (csis : List CSI) : String :=
  "Cultural Significance:\n" ++ String.join (csis.map csiLine)

/-- `build_long_description` of the design document. -/
def build_long_description (e : ExtractedAttributes) : String :=
  let parts := [e.long_description]
  let parts := if e.csis.isEmpty then parts else parts ++ [csiSection e.csis]
  let parts :=
    if e.craft_technique = "" then parts
    else parts ++ ["Craft Technique: " ++ e.craft_technique]
  pyJoin "\n\n" parts

/-- The `category_mapping` table of `map_category_to_ondc` (the entries the
source spells out). -/
def category_mapping : List (String × String) :=
  [("handloom saree", "Fashion:Ethnic Wear:Sarees"),
   ("pottery", "Home & Decor:Handicrafts:Pottery"),
   ("jewelry", "Fashion:Jewelry:Handcrafted")]

/-- `map_category_to_ondc` of the design document:
`category_mapping.get(category.lower(), 'General:Handicrafts')`. -/
def map_category_to_ondc (category : String) : String :=
  (category_mapping.lookup (pyLower category)).getD "General:Handicrafts"

/-- `generate_item_id`'s `hash_input`: the five id components joined with
`|`, the list components sorted and joined with `,`. -/
def hash_input (e : ExtractedAttributes) : String :=
  pyJoin "|"
    [e.category, e.subcategory,
     pyJoin "," (sortStrings e.material),
     pyJoin "," (sortStrings e.colors),
     e.price.value]

/-- `generate_item_id` of the design document:
`item_` plus the first 16 hex digits of the SHA-256 of `hash_input`. -/
def generate_item_id (e : ExtractedAttributes) : String :=
  "item_" ++ pyTake 16 (sha256hex (hash_input e))

/-- `map_to_beckn_item` of the design document.  The `{**base, **csis}` dict
merge becomes list append. -/
def map_to_beckn_item (e : ExtractedAttributes) : ONDCCatalogItem :=
  { id := generate_item_id e
    descriptor :=
      { name := pyTake 100 e.short_description
        short_desc := e.short_description
        long_desc := build_long_description e
        images := get_image_urls e }
    price := { currency := e.price.currency, value := e.price.value }
    category_id := map_category_to_ondc e.category
    tags :=
      [("material", pyJoin "," e.material),
       ("color", pyJoin "," e.colors),
       ("craft_technique", e.craft_technique),
       ("region", e.region_of_origin)] ++ map_csis_to_tags e.csis }

/-! ## Validation (design.md, "Validation Rules") -/

/-- Modelled from the spec: `is_valid_price` is called by the validator but
not defined in the source; the spec requires `price.value` to be a numeric
string, so the check accepts a non-empty digit string with at most one decimal
point and at least one digit. -/
def is_valid_price (s : String) : Bool :=
  !s.isEmpty &&
    s.data.all (fun c => c.isDigit || c == '.') &&
    decide ((s.data.filter (fun c => c == '.')).length ≤ 1) &&
    s.data.any (fun c => c.isDigit)

/-- Modelled from the spec: `is_valid_url` is called by the validator but not
defined in the source; the spec requires each image reference to be
well-formed as a URL, so the check accepts an http(s) URL with a non-empty
remainder after the scheme. -/
def is_valid_url (u : String) : Bool :=
  ("http://".data.isPrefixOf u.data && decide (7 < u.data.length)) ||
    ("https://".data.isPrefixOf u.data && decide (8 < u.data.length))

/-- `ValidationResult` returned by `validate_ondc_payload`. -/
structure ValidationResult where
  is_valid : Bool
  errors : List String
  deriving DecidableEq

/-- The error list accumulated by `validate_ondc_payload`, in the source's
order of checks. -/
def validation_errors (p : ONDCCatalogItem) : List String :=
  (if p.descriptor.name = "" then ["descriptor.name is required"] else []) ++
  (if p.price.value = "" then ["price.value is required"] else []) ++
  (if p.category_id = "" then ["category_id is required"] else []) ++
  (if p.price.value ≠ "" ∧ ¬is_valid_price p.price.value then
     ["price.value must be numeric string"] else []) ++
  (if 100 < p.descriptor.name.length then
     ["descriptor.name must be <= 100 characters"] else []) ++
  (if 500 < p.descriptor.short_desc.length then
     ["descriptor.short_desc must be <= 500 characters"] else []) ++
  (if p.descriptor.images = [] then ["At least one image is required"] else []) ++
  (p.descriptor.images.filter (fun u => !is_valid_url u)).map
    (fun u => "Invalid image URL: " ++ u)

/-- `validate_ondc_payload` of the design document. -/
def validate_ondc_payload (p : ONDCCatalogItem) : ValidationResult :=
  { is_valid := (validation_errors p).isEmpty
    errors := validation_errors p }

/-- Modelled from the spec: the orchestrator attempts a gateway submission
only for a payload that passed validation; a hard rejection means no
submission is attempted for that payload. -/
def attempt_submission (p : ONDCCatalogItem) : Option ONDCCatalogItem :=
  if (validate_ondc_payload p).is_valid then some p else none

/-! ## Backend processing error handlers (design.md, "Error Handling") -/

/-- The failure classes `handle_asr_error` distinguishes:
`ModelTimeoutError`, `UnsupportedLanguageError`, and any other exception. -/
inductive ASRFailure
  | modelTimeout
  | unsupportedLanguage
  | otherError (message : String)
  deriving DecidableEq

/-- Outcome of `ProcessingErrorHandler.handle_asr_error`: the updated record,
whether the record was re-published to the queue at high priority, and whether
manual review was notified. -/
structure ASRHandlerOutcome where
  record : CatalogProcessingRecord
  requeuedHighPriority : Bool
  manualReview : Bool
  deriving DecidableEq

/-- `ProcessingErrorHandler.handle_asr_error` of the design document. -/
def handle_asr_error (r : CatalogProcessingRecord) (e : ASRFailure) :
    ASRHandlerOutcome :=
  match e with
  | .modelTimeout =>
      { record := { r with asr_status := .pending }
        requeuedHighPriority := true
        manualReview := false }
  | .unsupportedLanguage =>
      { record :=
          { r with
            asr_status := .failed
            asr_result := .errorPayload "unsupported_language" "manual" }
        requeuedHighPriority := false
        manualReview := true }
  | .otherError _ =>
      { record :=
          { r with
            asr_status := .skipped
            asr_result := .transcriptionPayload "" 0 }
        requeuedHighPriority := false
        manualReview := false }

/-- Modelled from the spec: `auto_correct` is called by
`handle_validation_error` but not defined in the source.  The spec prescribes
bounded auto-correction of soft violations (truncate length overflow) and a
hard rejection — no corrected payload — when the payload misses a mandatory
field (empty name, missing or non-numeric price, empty category, missing or
malformed images). -/
def auto_correct (p : ONDCCatalogItem) (es : List String) : Option ONDCCatalogItem :=
  if p.descriptor.name = "" ∨ p.price.value = "" ∨ ¬is_valid_price p.price.value ∨
      p.category_id = "" ∨ p.descriptor.images = [] ∨
      ¬(p.descriptor.images.all (fun u => is_valid_url u)) then
    none
  else
    some
      { p with
        descriptor :=
          { p.descriptor with
            name := pyTake 100 p.descriptor.name
            short_desc := pyTake 500 p.descriptor.short_desc } }

/-- Outcome of `ProcessingErrorHandler.handle_validation_error`: the updated
record and whether manual review was notified. -/
structure ValidationHandlerOutcome where
  record : CatalogProcessingRecord
  manualReview : Bool
  deriving DecidableEq

/-- `ProcessingErrorHandler.handle_validation_error` of the design document:
one `auto_correct` attempt; on success the corrected payload is stored and the
mapping stage is marked completed, otherwise the stage is marked failed and
the record is routed to manual review. -/
def handle_validation_error (r : CatalogProcessingRecord) (es : List String) :
    ValidationHandlerOutcome :=
  match auto_correct r.ondc_payload es with
  | some corrected =>
      { record := { r with ondc_payload := corrected, mapping_status := .completed }
        manualReview := false }
  | none =>
      { record := { r with mapping_status := .failed }
        manualReview := true }

/-! ## Circuit breaker (design.md, "Circuit Breaker Pattern") -/

/-- The three breaker states of the source (`CLOSED`, `OPEN`, `HALF_OPEN`). -/
inductive CBState
  | cbClosed
  | cbOpen
  | cbHalfOpen
  deriving DecidableEq

/-- `class CircuitBreaker` of the design document.  `last_failure_time` is
`None` until the first failure; it is only ever read in the `OPEN` state,
which a failure always precedes, so it is modelled as a natural starting
at `0`. -/
structure CircuitBreaker where
  failure_count : Nat
  failure_threshold : Nat
  cbTimeout : Nat
  state : CBState
  last_failure_time : Nat
  deriving DecidableEq

/-- `CircuitBreaker.__init__` with its defaults. -/
def CircuitBreaker.init (threshold timeout : Nat) : CircuitBreaker :=
  { failure_count := 0
    failure_threshold := threshold
    cbTimeout := timeout
    state := .cbClosed
    last_failure_time := 0 }

/-- What one `CircuitBreaker.call` did: rejected fast without invoking the
wrapped function, invoked it and returned its result, or invoked it and
re-raised its exception. -/
inductive CallOutcome
  | rejected
  | returned
  | raised
  deriving DecidableEq

/-- `CircuitBreaker.call` of the design document.  `now` is the value of
`time.time()` for this call and `ok` is whether the wrapped function returns
normally when invoked. -/
def CircuitBreaker.call (cb : CircuitBreaker) (now : Nat) (ok : Bool) :
    CallOutcome × CircuitBreaker :=
  let gate :=
    if cb.state = .cbOpen then
      if cb.cbTimeout < now - cb.last_failure_time then
        some { cb with state := .cbHalfOpen }
      else none
    else some cb
  match gate with
  | none => (.rejected, cb)
  | some cb1 =>
      if ok then
        if cb1.state = .cbHalfOpen then
          (.returned, { cb1 with state := .cbClosed, failure_count := 0 })
        else (.returned, cb1)
      else
        let fc := cb1.failure_count + 1
        let cb2 := { cb1 with failure_count := fc, last_failure_time := now }
        if cb2.failure_threshold ≤ fc then
          (.raised, { cb2 with state := .cbOpen })
        else (.raised, cb2)

/-- The breaker state after one call (time of the call, outcome of the wrapped
function). -/
def cbStep (cb : CircuitBreaker) (ev : Nat × Bool) : CircuitBreaker :=
  (CircuitBreaker.call cb ev.1 ev.2).2

/-- The breaker state reached from a fresh breaker after a sequence of
calls. -/
def cbRun (threshold timeout : Nat) (evs : List (Nat × Bool)) : CircuitBreaker :=
  evs.foldl cbStep (CircuitBreaker.init threshold timeout)

/-! ## Attribute resolver (spec-modelled) -/

/-- Modelled from the spec: the voice-derived interpretation of one record
(the attribute fields the extractor reads out of the transcription); absent
fields are `none`.  The Attribute Extractor & Resolver implementation is not
in the repository. -/
structure VoiceInterpretation where
  category : Option String
  subcategory : Option String
  material : Option (List String)
  colors : Option (List String)
  price : Option PriceDict
  deriving DecidableEq

/-- Modelled from the spec: the vision-derived interpretation
(`{ category, colors, materials, confidence }`); absent fields are `none`. -/
structure VisionInterpretation where
  category : Option String
  colors : Option (List String)
  materials : Option (List String)
  deriving DecidableEq

/-- Modelled from the spec: the resolver's per-field result; each field keeps
its provenance-resolved value or stays absent. -/
structure ResolvedAttributes where
  category : Option String
  subcategory : Option String
  material : Option (List String)
  colors : Option (List String)
  price : Option PriceDict
  deriving DecidableEq

/-- Modelled from the spec: the conflict-resolution rule of the Attribute
Extractor & Resolver — per field, a voice-derived value wins over the
vision-derived one, and a field voice omits falls back to the vision-derived
value when vision supplies one. -/
def resolve_attributes (voice : VoiceInterpretation)
    (vision : VisionInterpretation) : ResolvedAttributes :=
  { category :=
      match voice.category with
      | some v => some v
      | none => vision.category
    subcategory := voice.subcategory
    material :=
      match voice.material with
      | some v => some v
      | none => vision.materials
    colors :=
      match voice.colors with
      | some v => some v
      | none => vision.colors
    price := voice.price }

/-! ## Submission manager record updates (spec-modelled) -/

/-- Modelled from the spec: the slice of a processing record the Submission
Manager owns — the idempotency key, the catalog id assigned by the network,
the update version counter, and the submission stage status.  The Submission
Manager implementation is not in the repository. -/
structure SubmissionRecord where
  idempotency_key : String
  ondc_catalog_id : Option String
  version : Nat
  submission_status : ProcessingStatus
  deriving DecidableEq

/-- Modelled from the spec: the outcome of one gateway submission attempt —
success carrying the catalog id the network answered with, a retryable
(transient) failure, or a permanent failure. -/
inductive SubmissionEvent
  | success (catalogId : String)
  | transientFailure
  | permanentFailure
  deriving DecidableEq

/-- Modelled from the spec: how the Submission Manager updates the record
after one attempt.  A first success stores the network-assigned catalog id; a
success on a record that already carries a catalog id is an update that keeps
the original id and increments `version`; a transient failure re-queues the
stage as pending for retry; a permanent failure marks it failed. -/
def apply_submission (r : SubmissionRecord) (e : SubmissionEvent) :
    SubmissionRecord :=
  match e with
  | .success cid =>
      match r.ondc_catalog_id with
      | some _ =>
          { r with version := r.version + 1, submission_status := .completed }
      | none =>
          { r with ondc_catalog_id := some cid, submission_status := .completed }
  | .transientFailure => { r with submission_status := .pending }
  | .permanentFailure => { r with submission_status := .failed }

/-- The record after a whole sequence of submission attempts. -/
def run_submissions (r : SubmissionRecord) (es : List SubmissionEvent) :
    SubmissionRecord :=
  es.foldl apply_submission r

/-! ## Concrete sample values used by witnesses and counterexamples -/

/-- A representative extracted-attributes value. -/
def sampleAttributes : ExtractedAttributes :=
  { category := "pottery"
    subcategory := "terracotta"
    material := ["clay"]
    colors := ["red"]
    dimensions := []
    weight := []
    price := { value := "250", currency := "INR" }
    short_description := "Handmade terracotta pot"
    long_description := "A handmade terracotta pot."
    csis := []
    craft_technique := "wheel thrown"
    region_of_origin := "Kutch"
    confidence_scores := []
    image_urls := ["https://img.example/pot.jpg"] }

/-- Attributes whose material list holds one string containing a comma. -/
def cexAttrA : ExtractedAttributes :=
  { sampleAttributes with material := ["a,b"] }

/-- Attributes whose material list holds the two pieces of that string. -/
def cexAttrB : ExtractedAttributes :=
  { sampleAttributes with material := ["a", "b"] }

/-- Attributes listing materials in one order. -/
def wAttrA : ExtractedAttributes :=
  { sampleAttributes with material := ["zari", "silk"] }

/-- The same attributes listing materials in the other order. -/
def wAttrB : ExtractedAttributes :=
  { sampleAttributes with material := ["silk", "zari"] }

/-- Attributes with an empty transcreated long description, no CSIs and a
craft technique. -/
def cexDescAttr : ExtractedAttributes :=
  { sampleAttributes with
    long_description := ""
    csis := []
    craft_technique := "Blockprint" }

/-- A voice interpretation supplying category and colors but no materials. -/
def sampleVoice : VoiceInterpretation :=
  { category := some "banarasi saree"
    subcategory := none
    material := none
    colors := some ["blue"]
    price := some { value := "2500", currency := "INR" } }

/-- A vision interpretation conflicting on category and colors and supplying
materials. -/
def sampleVision : VisionInterpretation :=
  { category := some "sari"
    colors := some ["green"]
    materials := some ["silk"] }

/-- A payload that passes every validation check. -/
def sampleValidPayload : ONDCCatalogItem :=
  { id := "item_0"
    descriptor :=
      { name := "Pot"
        short_desc := "Handmade pot"
        long_desc := "A handmade pot."
        images := ["https://img.example/pot.jpg"] }
    price := { currency := "INR", value := "250" }
    category_id := "General:Handicrafts"
    tags := [] }

/-- A payload with an empty descriptor name. -/
def cexPayload : ONDCCatalogItem :=
  { sampleValidPayload with
    descriptor := { sampleValidPayload.descriptor with name := "" } }

/-- A representative in-flight processing record. -/
def sampleRecord : CatalogProcessingRecord :=
  { tracking_id := "trk-1"
    tenant_id := "tenant-1"
    artisan_id := "artisan-1"
    photo_key := "photos/p1.jpg"
    audio_key := "audio/a1.opus"
    language := "hi"
    asr_status := .in_progress
    asr_result := .noResult
    vision_status := .pending
    vision_result := []
    extraction_status := .pending
    extraction_result := []
    mapping_status := .pending
    ondc_payload := sampleValidPayload
    submission_status := .pending
    ondc_catalog_id := none
    created_at := 0
    updated_at := 0
    completed_at := 0 }

/-- A submission record that already carries a catalog id. -/
def sampleSubRecord : SubmissionRecord :=
  { idempotency_key := "key-1"
    ondc_catalog_id := some "cat-42"
    version := 1
    submission_status := .completed }

/-! ## Theorems -/

/-- Claim C1: for every field present in both the voice-derived and the
vision-derived interpretation the resolver keeps the voice-derived value, and
for every field voice omits the vision-derived value is retained; the rule is
per-field.  Stated for each of the fields both sides can supply (category,
material, colors). -/
theorem C1_voice_priority (v : VoiceInterpretation) (g : VisionInterpretation) :
    ((∀ x, v.category = some x → (resolve_attributes v g).category = some x) ∧
      (v.category = none → (resolve_attributes v g).category = g.category)) ∧
    ((∀ x, v.material = some x → (resolve_attributes v g).material = some x) ∧
      (v.material = none → (resolve_attributes v g).material = g.materials)) ∧
    ((∀ x, v.colors = some x → (resolve_attributes v g).colors = some x) ∧
      (v.colors = none → (resolve_attributes v g).colors = g.colors)) := by
  refine ⟨⟨fun x hx => ?_, fun hx => ?_⟩, ⟨fun x hx => ?_, fun hx => ?_⟩,
    ⟨fun x hx => ?_, fun hx => ?_⟩⟩ <;>
    simp [resolve_attributes, hx]

/-- Witness for C1 at a concrete conflicting pair: voice says blue, vision
says green, the resolved colors are blue; voice omits materials, vision's
silk is retained. -/
theorem C1_voice_priority_witness :
    (resolve_attributes sampleVoice sampleVision).colors = some ["blue"] ∧
    (resolve_attributes sampleVoice sampleVision).material = some ["silk"] :=
  ⟨(C1_voice_priority sampleVoice sampleVision).2.2.1 ["blue"] rfl,
    ((C1_voice_priority sampleVoice sampleVision).2.1.2 rfl).trans rfl⟩

/-- Claim C3: `map_to_beckn_item` is pure and deterministic — two
applications to identical input agree on the whole item and on every field,
including the derived id. -/
theorem C3_map_deterministic (e1 e2 : ExtractedAttributes) (h : e1 = e2) :
    map_to_beckn_item e1 = map_to_beckn_item e2 ∧
    (map_to_beckn_item e1).id = (map_to_beckn_item e2).id ∧
    (map_to_beckn_item e1).descriptor = (map_to_beckn_item e2).descriptor ∧
    (map_to_beckn_item e1).price = (map_to_beckn_item e2).price ∧
    (map_to_beckn_item e1).category_id = (map_to_beckn_item e2).category_id ∧
    (map_to_beckn_item e1).tags = (map_to_beckn_item e2).tags := by
  subst h
  exact ⟨rfl, rfl, rfl, rfl, rfl, rfl⟩

/-- Witness for C3 at a concrete attribute value. -/
theorem C3_map_deterministic_witness :
    map_to_beckn_item sampleAttributes = map_to_beckn_item sampleAttributes ∧
    (map_to_beckn_item sampleAttributes).id =
      (map_to_beckn_item sampleAttributes).id :=
  ⟨(C3_map_deterministic sampleAttributes sampleAttributes rfl).1,
    (C3_map_deterministic sampleAttributes sampleAttributes rfl).2.1⟩

/-- A catalog id, once set on a submission record, survives any single
further submission attempt. -/
theorem apply_submission_keeps_id (r : SubmissionRecord) (e : SubmissionEvent)
    (c : String) (h : r.ondc_catalog_id = some c) :
    (apply_submission r e).ondc_catalog_id = some c := by
  cases e <;> simp [apply_submission, h]

/-- A catalog id, once set, survives any sequence of further submission
attempts. -/
theorem run_submissions_keeps_id (es : List SubmissionEvent) :
    ∀ (r : SubmissionRecord) (c : String), r.ondc_catalog_id = some c →
      (run_submissions r es).ondc_catalog_id = some c := by
  induction es with
  | nil => intro r c h; simpa [run_submissions] using h
  | cons e es ih =>
      intro r c h
      have : run_submissions r (e :: es) = run_submissions (apply_submission r e) es := rfl
      rw [this]
      exact ih _ _ (apply_submission_keeps_id r e c h)

/-- Claim C4: `ondcCatalogId` is written at most once — only a successful
submission on a record without an id sets it; once set it is never changed by
any later attempt, and an update submission carries it forward unchanged while
incrementing `version`. -/
theorem C4_catalog_id_set_once (r : SubmissionRecord) (es : List SubmissionEvent)
    (e : SubmissionEvent) (c cid : String) :
    (r.ondc_catalog_id = some c →
      (run_submissions r es).ondc_catalog_id = some c) ∧
    (r.ondc_catalog_id = some c →
      (apply_submission r (.success cid)).ondc_catalog_id = some c ∧
      (apply_submission r (.success cid)).version = r.version + 1) ∧
    (r.ondc_catalog_id = none →
      (apply_submission r e).ondc_catalog_id = none ∨
      ∃ x, e = .success x ∧ (apply_submission r e).ondc_catalog_id = some x) := by
  refine ⟨fun h => run_submissions_keeps_id es r c h,
    fun h => ⟨apply_submission_keeps_id r (.success cid) c h, ?_⟩, fun h => ?_⟩
  · simp [apply_submission, h]
  · cases e with
    | success x => exact Or.inr ⟨x, rfl, by simp [apply_submission, h]⟩
    | transientFailure => exact Or.inl (by simp [apply_submission, h])
    | permanentFailure => exact Or.inl (by simp [apply_submission, h])

/-- Witness for C4 at a concrete record: the stored id survives a retry, a
further success and a permanent failure, and an update increments the
version. -/
theorem C4_catalog_id_set_once_witness :
    (run_submissions sampleSubRecord
        [.transientFailure, .success "cat-other", .permanentFailure]).ondc_catalog_id =
      some "cat-42" ∧
    (apply_submission sampleSubRecord (.success "cat-other")).version = 2 :=
  ⟨(C4_catalog_id_set_once sampleSubRecord
      [.transientFailure, .success "cat-other", .permanentFailure]
      .transientFailure "cat-42" "cat-other").1 rfl,
    ((C4_catalog_id_set_once sampleSubRecord [] .transientFailure "cat-42"
      "cat-other").2.1 rfl).2.trans rfl⟩

/-- Counterexample to claim C5 as stated: on a model timeout the ASR error
handler does not mark the stage SKIPPED — it resets the stage to PENDING and
re-queues the record, and on an unsupported language it marks the stage
FAILED and routes the record to manual review. -/
theorem C5_counterexample :
    (handle_asr_error sampleRecord .modelTimeout).record.asr_status =
      ProcessingStatus.pending ∧
    (handle_asr_error sampleRecord .modelTimeout).record.asr_status ≠
      ProcessingStatus.skipped ∧
    (handle_asr_error sampleRecord .modelTimeout).requeuedHighPriority = true ∧
    (handle_asr_error sampleRecord .unsupportedLanguage).record.asr_status =
      ProcessingStatus.failed ∧
    (handle_asr_error sampleRecord .unsupportedLanguage).manualReview = true := by
  refine ⟨rfl, ?_, rfl, rfl, rfl⟩
  intro h
  exact ProcessingStatus.noConfusion h

/-- Claim C5 as amended: only a generic ASR failure (neither a model timeout
nor an unsupported language) marks the stage SKIPPED with an empty
transcription and lets the pipeline proceed; a model timeout re-queues the
record with the stage reset to PENDING, and an unsupported language marks the
stage FAILED and routes the record to manual review. -/
theorem C5_asr_failure_policy (r : CatalogProcessingRecord) (msg : String) :
    ((handle_asr_error r (.otherError msg)).record.asr_status =
        ProcessingStatus.skipped ∧
      (handle_asr_error r (.otherError msg)).record.asr_result =
        ASRResultPayload.transcriptionPayload "" 0 ∧
      (handle_asr_error r (.otherError msg)).requeuedHighPriority = false ∧
      (handle_asr_error r (.otherError msg)).manualReview = false) ∧
    ((handle_asr_error r .modelTimeout).record.asr_status =
        ProcessingStatus.pending ∧
      (handle_asr_error r .modelTimeout).requeuedHighPriority = true) ∧
    ((handle_asr_error r .unsupportedLanguage).record.asr_status =
        ProcessingStatus.failed ∧
      (handle_asr_error r .unsupportedLanguage).record.asr_result =
        ASRResultPayload.errorPayload "unsupported_language" "manual" ∧
      (handle_asr_error r .unsupportedLanguage).manualReview = true) :=
  ⟨⟨rfl, rfl, rfl, rfl⟩, ⟨rfl, rfl⟩, ⟨rfl, rfl, rfl⟩⟩

/-- Claim C2, deterministic half (and the amended claim): the generated item
id is a function of exactly the five-component tuple — two attribute values
that agree on category, subcategory, sorted material, sorted colors and price
value get the same id. -/
theorem C2_item_id_deterministic (e1 e2 : ExtractedAttributes)
    (hc : e1.category = e2.category)
    (hs : e1.subcategory = e2.subcategory)
    (hm : sortStrings e1.material = sortStrings e2.material)
    (hk : sortStrings e1.colors = sortStrings e2.colors)
    (hp : e1.price.value = e2.price.value) :
    generate_item_id e1 = generate_item_id e2 := by
  unfold generate_item_id
  have h : hash_input e1 = hash_input e2 := by
    unfold hash_input
    rw [hc, hs, hm, hk, hp]
  rw [h]

/-- Witness for C2: two records listing the same materials in different
orders agree on all five components and get the same id. -/
theorem C2_item_id_deterministic_witness :
    sortStrings wAttrA.material = sortStrings wAttrB.material ∧
    wAttrA.material ≠ wAttrB.material ∧
    generate_item_id wAttrA = generate_item_id wAttrB :=
  ⟨by decide, by decide,
    C2_item_id_deterministic wAttrA wAttrB rfl rfl (by decide) rfl rfl⟩

/-- Counterexample to the distinctness half of claim C2: the components are
joined with commas before hashing, so the material lists `["a,b"]` and
`["a", "b"]` differ — the two values differ in exactly one of the five
components — yet the generated ids coincide. -/
theorem C2_counterexample :
    sortStrings cexAttrA.material ≠ sortStrings cexAttrB.material ∧
    cexAttrA.category = cexAttrB.category ∧
    cexAttrA.subcategory = cexAttrB.subcategory ∧
    sortStrings cexAttrA.colors = sortStrings cexAttrB.colors ∧
    cexAttrA.price.value = cexAttrB.price.value ∧
    generate_item_id cexAttrA = generate_item_id cexAttrB := by
  refine ⟨by decide, rfl, rfl, rfl, rfl, ?_⟩
  unfold generate_item_id
  have h : hash_input cexAttrA = hash_input cexAttrB := by decide
  rw [h]

/-- Claim C8 as amended: the long description always starts with the
transcreated long description (even when that is empty, in which case the
joined output keeps a leading separator), followed — each part omitted
entirely when its source data is absent — by the Cultural Significance
section and the craft-technique line, separated by blank lines. -/
theorem C8_long_description_layout (e : ExtractedAttributes) :
    build_long_description e =
      e.long_description ++
        (if e.csis.isEmpty then "" else "\n\n" ++ csiSection e.csis) ++
        (if e.craft_technique = "" then ""
         else "\n\n" ++ "Craft Technique: " ++ e.craft_technique) := by
  have hlit : ("\n\nCraft Technique: " : String) = "\n\n" ++ "Craft Technique: " := by
    decide
  unfold build_long_description
  by_cases hc : e.csis.isEmpty <;> by_cases ht : e.craft_technique = "" <;>
    simp [hc, ht, pyJoin, String.append_assoc]
  all_goals rw [hlit, String.append_assoc]

/-- Counterexample to claim C8 as stated: with an empty transcreated long
description, no CSIs and a craft technique, the built description is not the
concatenation of the present sections alone — the absent first section still
contributes an empty segment, leaving a leading blank-line separator. -/
theorem C8_counterexample :
    build_long_description cexDescAttr = "\n\nCraft Technique: Blockprint" ∧
    build_long_description cexDescAttr ≠ "Craft Technique: Blockprint" := by
  constructor
  · decide
  · decide

/-- The breaker invariant: configuration is preserved and a non-CLOSED state
is only reached once the failure counter has hit the threshold. -/
def cbInv (t w : Nat) (cb : CircuitBreaker) : Prop :=
  cb.failure_threshold = t ∧ cb.cbTimeout = w ∧
    (cb.state ≠ CBState.cbClosed → t ≤ cb.failure_count)

/-- One call preserves the breaker invariant. -/
theorem cbStep_inv (t w : Nat) (cb : CircuitBreaker) (ev : Nat × Bool)
    (h : cbInv t w cb) : cbInv t w (cbStep cb ev) := by
  obtain ⟨fc, ft, tw, st, lt⟩ := cb
  obtain ⟨ev1, ev2⟩ := ev
  obtain ⟨ht, hw, hs⟩ := h
  simp only at ht hw
  subst ht
  subst hw
  unfold cbStep CircuitBreaker.call
  cases st <;> cases ev2 <;>
    (try simp_all [cbInv]) <;>
    (try split_ifs) <;>
    (try simp_all) <;>
    (try split_ifs) <;>
    (try simp_all) <;>
    omega

/-- Every breaker state reachable from a fresh breaker satisfies the
invariant. -/
theorem cbRun_inv (t w : Nat) (evs : List (Nat × Bool)) :
    cbInv t w (cbRun t w evs) := by
  suffices h : ∀ cb : CircuitBreaker, cbInv t w cb → cbInv t w (evs.foldl cbStep cb) by
    exact h _ ⟨rfl, rfl, fun hx => absurd rfl hx⟩
  induction evs with
  | nil => intro cb h; simpa using h
  | cons e es ih => intro cb h; exact ih _ (cbStep_inv t w cb e h)

/-- Claim C6 as amended: a reachable breaker is OPEN only once the failure
counter has reached the threshold — the counter counts failures since the
last successful HALF_OPEN trial (a success in the CLOSED state does not reset
it, so the failures need not be consecutive); while OPEN and within the
cooldown, a call is rejected without invoking the wrapped function and the
breaker is unchanged; after the cooldown the trial call runs — success closes
the breaker and zeroes the counter, failure re-opens it and restarts the
cooldown. -/
theorem C6_circuit_breaker (t w : Nat) (evs : List (Nat × Bool)) (now : Nat)
    (ok : Bool) (cb : CircuitBreaker) (hcb : cb = cbRun t w evs) :
    (cb.state = CBState.cbOpen → t ≤ cb.failure_count) ∧
    (cb.state = CBState.cbOpen → now - cb.last_failure_time ≤ w →
      CircuitBreaker.call cb now ok = (CallOutcome.rejected, cb)) ∧
    (cb.state = CBState.cbOpen → w < now - cb.last_failure_time → ok = true →
      (CircuitBreaker.call cb now ok).1 = CallOutcome.returned ∧
      (CircuitBreaker.call cb now ok).2.state = CBState.cbClosed ∧
      (CircuitBreaker.call cb now ok).2.failure_count = 0) ∧
    (cb.state = CBState.cbOpen → w < now - cb.last_failure_time → ok = false →
      (CircuitBreaker.call cb now ok).1 = CallOutcome.raised ∧
      (CircuitBreaker.call cb now ok).2.state = CBState.cbOpen ∧
      (CircuitBreaker.call cb now ok).2.last_failure_time = now) := by
  have hinv : cbInv t w cb := hcb ▸ cbRun_inv t w evs
  obtain ⟨ht, hw, hs⟩ := hinv
  refine ⟨fun ho => hs (by rw [ho]; simp), fun ho hle => ?_, fun ho hgt hok => ?_,
    fun ho hgt hok => ?_⟩
  · have hnlt : ¬cb.cbTimeout < now - cb.last_failure_time := by omega
    unfold CircuitBreaker.call
    simp [ho, hnlt]
  · have hlt : cb.cbTimeout < now - cb.last_failure_time := by omega
    unfold CircuitBreaker.call
    simp [ho, hlt, hok]
  · have hfc : t ≤ cb.failure_count := hs (by rw [ho]; simp)
    have hth : cb.failure_threshold ≤ cb.failure_count + 1 := by omega
    have hlt : cb.cbTimeout < now - cb.last_failure_time := by omega
    unfold CircuitBreaker.call
    simp [ho, hlt, hok, hth]

/-- Witness for C6 at a concrete breaker: after one failure with threshold 1,
the breaker is OPEN; inside the cooldown a call is rejected unchanged, and
after the cooldown a failing trial re-opens it with the cooldown restarted. -/
theorem C6_circuit_breaker_witness :
    CircuitBreaker.call (cbRun 1 5 [(1, false)]) 3 true =
      (CallOutcome.rejected, cbRun 1 5 [(1, false)]) ∧
    (CircuitBreaker.call (cbRun 1 5 [(1, false)]) 10 false).2.state =
      CBState.cbOpen ∧
    (CircuitBreaker.call (cbRun 1 5 [(1, false)]) 10 false).2.last_failure_time =
      10 :=
  ⟨(C6_circuit_breaker 1 5 [(1, false)] 3 true (cbRun 1 5 [(1, false)]) rfl).2.1
      (by decide) (by decide),
    ((C6_circuit_breaker 1 5 [(1, false)] 10 false (cbRun 1 5 [(1, false)]) rfl).2.2.2
      (by decide) (by decide) rfl).2.1,
    ((C6_circuit_breaker 1 5 [(1, false)] 10 false (cbRun 1 5 [(1, false)]) rfl).2.2.2
      (by decide) (by decide) rfl).2.2⟩

/-- Counterexample to claim C6 as stated: with threshold 2, the sequence
failure, success, failure opens the breaker although no two consecutive
failures occurred — the intervening success left the failure counter at 1
instead of resetting it. -/
theorem C6_counterexample :
    (cbRun 2 60 [(1, false), (2, true)]).failure_count = 1 ∧
    (cbRun 2 60 [(1, false), (2, true)]).state = CBState.cbClosed ∧
    (cbRun 2 60 [(1, false), (2, true), (3, false)]).state = CBState.cbOpen := by
  refine ⟨?_, ?_, ?_⟩ <;> decide

/-- An if-then-else producing a singleton or empty error list is empty
exactly when its condition fails. -/
theorem ite_singleton_eq_nil (c : Prop) [Decidable c] (x : String) :
    ((if c then [x] else []) = ([] : List String)) ↔ ¬c := by
  split <;> simp_all

/-- The validator's error list is empty exactly when every check passes. -/
theorem validation_errors_eq_nil (p : ONDCCatalogItem) :
    validation_errors p = [] ↔
      (p.descriptor.name ≠ "" ∧ p.price.value ≠ "" ∧ p.category_id ≠ "" ∧
        ¬(p.price.value ≠ "" ∧ is_valid_price p.price.value = false) ∧
        p.descriptor.name.length ≤ 100 ∧ p.descriptor.short_desc.length ≤ 500 ∧
        p.descriptor.images ≠ [] ∧
        ∀ u ∈ p.descriptor.images, is_valid_url u = true) := by
  unfold validation_errors
  simp only [List.append_eq_nil, ite_singleton_eq_nil, List.map_eq_nil_iff,
    List.filter_eq_nil_iff, Bool.not_eq_true, not_lt, Bool.not_eq_false,
    Bool.not_eq_true', Bool.not_eq_false']
  tauto

/-- Claim C7: a mapped item with an empty descriptor name, a missing or
non-numeric price value, an empty category id, an empty image list or a
malformed image URL fails validation, and no gateway submission is attempted
for that payload. -/
theorem C7_hard_rejections (p : ONDCCatalogItem)
    (h : p.descriptor.name = "" ∨ p.price.value = "" ∨
      is_valid_price p.price.value = false ∨ p.category_id = "" ∨
      p.descriptor.images = [] ∨
      ∃ u ∈ p.descriptor.images, is_valid_url u = false) :
    (validate_ondc_payload p).is_valid = false ∧ attempt_submission p = none := by
  have hne : validation_errors p ≠ [] := by
    intro hnil
    obtain ⟨h1, h2, h3, h4, h5, h6, h7, h8⟩ := (validation_errors_eq_nil p).mp hnil
    rcases h with h | h | h | h | h | h
    · exact h1 h
    · exact h2 h
    · exact h4 ⟨h2, h⟩
    · exact h3 h
    · exact h7 h
    · obtain ⟨u, hu, hbad⟩ := h
      rw [h8 u hu] at hbad
      exact Bool.noConfusion hbad
  have hfalse : (validate_ondc_payload p).is_valid = false := by
    unfold validate_ondc_payload
    cases hval : validation_errors p with
    | nil => exact absurd hval hne
    | cons a l => simp [hval]
  refine ⟨hfalse, ?_⟩
  unfold attempt_submission
  rw [hfalse]
  simp

/-- Witness for C7: a payload with an empty name fails validation and is not
submitted. -/
theorem C7_hard_rejections_witness :
    (validate_ondc_payload cexPayload).is_valid = false ∧
    attempt_submission cexPayload = none :=
  C7_hard_rejections cexPayload (Or.inl rfl)

/-- Truncation bounds the character count. -/
theorem pyTake_length_le (n : Nat) (s : String) : (pyTake n s).length ≤ n := by
  have h : (pyTake n s).length = (s.data.take n).length := rfl
  rw [h, List.length_take]
  exact Nat.min_le_left _ _

/-- Truncating a non-empty string to a positive length keeps it non-empty. -/
theorem pyTake_ne_empty (n : Nat) (s : String) (hn : 0 < n) (hs : s ≠ "") :
    pyTake n s ≠ "" := by
  intro h
  apply hs
  rw [String.ext_iff] at h ⊢
  have hd : s.data.take n = [] := h
  cases hl : s.data with
  | nil => rfl
  | cons a l =>
      rw [hl] at hd
      cases n with
      | zero => omega
      | succ m => exact List.noConfusion hd

/-- A payload the modelled `auto_correct` returns passes re-validation. -/
theorem auto_correct_passes (p c : ONDCCatalogItem) (es : List String)
    (h : auto_correct p es = some c) :
    (validate_ondc_payload c).is_valid = true := by
  unfold auto_correct at h
  split at h
  · exact Option.noConfusion h
  · rename_i hcond
    push_neg at hcond
    obtain ⟨hname, hval, hprice, hcat, himg, hall⟩ := hcond
    injection h with hc
    subst hc
    have herr : validation_errors
        { p with
          descriptor :=
            { p.descriptor with
              name := pyTake 100 p.descriptor.name
              short_desc := pyTake 500 p.descriptor.short_desc } } = [] := by
      refine (validation_errors_eq_nil _).mpr
        ⟨pyTake_ne_empty 100 p.descriptor.name (by omega) hname, hval, hcat,
          ?_, pyTake_length_le 100 p.descriptor.name,
          pyTake_length_le 500 p.descriptor.short_desc, himg, ?_⟩
      · rintro ⟨-, hf⟩
        rw [hprice] at hf
        exact Bool.noConfusion hf
      · intro u hu
        exact List.all_eq_true.mp hall u hu
    unfold validate_ondc_payload
    simp [herr]

/-- Claim C9: within one mapping run auto-correction is applied at most once;
a record whose mapping stage ends completed holds a payload that passes
re-validation, and otherwise the stage is failed and the record is routed to
manual review instead of looping. -/
theorem C9_validation_error_handling (r : CatalogProcessingRecord)
    (es : List String) :
    ((handle_validation_error r es).record.mapping_status =
        ProcessingStatus.completed →
      (validate_ondc_payload
        (handle_validation_error r es).record.ondc_payload).is_valid = true) ∧
    ((handle_validation_error r es).record.mapping_status ≠
        ProcessingStatus.completed →
      (handle_validation_error r es).record.mapping_status =
          ProcessingStatus.failed ∧
        (handle_validation_error r es).manualReview = true) ∧
    ((handle_validation_error r es).record.ondc_payload = r.ondc_payload ∨
      auto_correct r.ondc_payload es =
        some (handle_validation_error r es).record.ondc_payload) := by
  cases hac : auto_correct r.ondc_payload es with
  | some c =>
      refine ⟨fun _ => ?_, fun hne => absurd ?_ hne, Or.inr ?_⟩
      · have hp : (handle_validation_error r es).record.ondc_payload = c := by
          simp [handle_validation_error, hac]
        rw [hp]
        exact auto_correct_passes r.ondc_payload c es hac
      · simp [handle_validation_error, hac]
      · simp [handle_validation_error, hac]
  | none =>
      refine ⟨fun hc => ?_, fun _ => ⟨?_, ?_⟩, Or.inl ?_⟩
      · exfalso
        simp [handle_validation_error, hac] at hc
      · simp [handle_validation_error, hac]
      · simp [handle_validation_error, hac]
      · simp [handle_validation_error, hac]

/-- Witness for C9: on a record with a valid payload the handler completes
the mapping stage with a payload that passes re-validation, and it is not
routed to manual review. -/
theorem C9_validation_error_handling_witness :
    (validate_ondc_payload
      (handle_validation_error sampleRecord
        ["descriptor.name must be <= 100 characters"]).record.ondc_payload).is_valid =
      true ∧
    (handle_validation_error sampleRecord
      ["descriptor.name must be <= 100 characters"]).record.mapping_status =
      ProcessingStatus.completed :=
  ⟨(C9_validation_error_handling sampleRecord
      ["descriptor.name must be <= 100 characters"]).1 (by decide), by decide⟩

/-- Lowercase codepoints round-trip through `Char.ofNat`. -/
theorem charOfNat_toNat (n : Nat) (h1 : 97 ≤ n) (h2 : n ≤ 122) :
    (Char.ofNat n).toNat = n := by
  interval_cases n <;> decide

/-- The modelled `str.lower()` is idempotent on characters. -/
theorem pyToLower_idem (c : Char) : pyToLower (pyToLower c) = pyToLower c := by
  by_cases h : 65 ≤ c.toNat ∧ c.toNat ≤ 90
  · have h1 : pyToLower c = Char.ofNat (c.toNat + 32) := by
      unfold pyToLower
      rw [if_pos h]
    have h2 : (Char.ofNat (c.toNat + 32)).toNat = c.toNat + 32 :=
      charOfNat_toNat (c.toNat + 32) (by omega) (by omega)
    rw [h1]
    unfold pyToLower
    rw [if_neg]
    rw [h2]
    omega
  · have h1 : pyToLower c = c := by
      unfold pyToLower
      rw [if_neg h]
    rw [h1, h1]

/-- The modelled `str.lower()` is idempotent on strings. -/
theorem pyLower_idem (s : String) : pyLower (pyLower s) = pyLower s := by
  unfold pyLower
  apply String.ext
  show (s.data.map pyToLower).map pyToLower = s.data.map pyToLower
  rw [List.map_map]
  exact List.map_congr_left (fun c _ => pyToLower_idem c)

/-- The category mapper never answers an empty taxonomy string: each table
entry is non-empty and so is the fallback. -/
theorem map_category_nonempty (s : String) : map_category_to_ondc s ≠ "" := by
  unfold map_category_to_ondc category_mapping
  simp only [List.lookup]
  cases h1 : pyLower s == "handloom saree"
  · cases h2 : pyLower s == "pottery"
    · cases h3 : pyLower s == "jewelry" <;> simp [h1, h2, h3]
    · simp [h1, h2]
  · simp [h1]

/-- Claim C10: the category lookup is case-insensitive — the mapper answers
the same taxonomy string for a category and for its lowercased form — and its
answer is never empty (the fallback is the generic handicrafts category), so
a mapped item's category id can never trip the category hard rejection. -/
theorem C10_category_mapping (s : String) (e : ExtractedAttributes) :
    map_category_to_ondc s = map_category_to_ondc (pyLower s) ∧
    map_category_to_ondc s ≠ "" ∧
    (map_to_beckn_item e).category_id ≠ "" := by
  refine ⟨?_, map_category_nonempty s, ?_⟩
  · unfold map_category_to_ondc
    rw [pyLower_idem]
  · have h : (map_to_beckn_item e).category_id = map_category_to_ondc e.category := rfl
    rw [h]
    exact map_category_nonempty e.category
